import Mathlib

/-!
Shallow embedding of the houseboat booking system's two pricing estimators:

* `src/rulebased_pricing_module.py` — `calculate_price_with_rules`, a rule-based
  nightly pricing function over calendar dates.
* `src/houseboat_price_predictor.py` — `predict_dynamic_price`, a comparable-based
  estimator over a dataset of historical single-night bookings.

Python decimal literals are embedded as exact rationals; Python `datetime.date`
is embedded as a calendar-date structure with Python's `date.fromisoformat`
parsing (`YYYY-MM-DD`, proleptic Gregorian calendar, years 1..9999) and
`date.weekday()` (Monday = 0) computed through a day-number conversion.
Failure paths (the script's `return None` after a diagnostic print, its uncaught
exceptions, and its NaN propagation from an empty dataset) are embedded as typed
errors following the spec's error taxonomy (spec §7).
-/

namespace Houseboat

/-! ### Calendar dates (`datetime.date`) -/

/-- A calendar date, as Python's `datetime.date`: year 1..9999, month 1..12,
day within the month's length. -/
structure Date where
  year : Nat
  month : Nat
  day : Nat
deriving DecidableEq, Repr

/-- Gregorian leap-year rule, as used by `datetime.date`. -/
def isLeap (y : Nat) : Bool :=
  (y % 4 == 0 && y % 100 != 0) || y % 400 == 0

/-- Number of days in a month of a given year. -/
def daysInMonth (y m : Nat) : Nat :=
  if m = 2 then (if isLeap y then 29 else 28)
  else if m = 4 ∨ m = 6 ∨ m = 9 ∨ m = 11 then 30
  else 31

/-- Validity of a date, with Python's `datetime.date` year bounds. -/
def Date.valid (d : Date) : Bool :=
  1 ≤ d.year && d.year ≤ 9999 && 1 ≤ d.month && d.month ≤ 12 &&
    1 ≤ d.day && d.day ≤ daysInMonth d.year d.month

/-- Day number of a date: days elapsed since 0000-03-01 of the proleptic
Gregorian calendar (civil-from-days algorithm, months shifted so the leap day
comes last). Embeds `datetime.date.toordinal` up to a constant offset, so date
comparison and date subtraction in the source become comparison and
subtraction of day numbers. -/
def Date.toDayNumber (d : Date) : Nat :=
  let y := if d.month ≤ 2 then d.year - 1 else d.year
  let era := y / 400
  let yoe := y % 400
  let mp := (d.month + 9) % 12
  let doy := (153 * mp + 2) / 5 + (d.day - 1)
  let doe := yoe * 365 + yoe / 4 - yoe / 100 + doy
  era * 146097 + doe

/-- Python's `date.weekday()`: Monday = 0 … Sunday = 6.
0000-03-01 of the proleptic Gregorian calendar is a Wednesday (= 2). -/
def Date.weekday (d : Date) : Nat :=
  (d.toDayNumber + 2) % 7

/-- Successor date (what `current_date += datetime.timedelta(days=1)` computes). -/
def Date.next (d : Date) : Date :=
  if d.day < daysInMonth d.year d.month then ⟨d.year, d.month, d.day + 1⟩
  else if d.month < 12 then ⟨d.year, d.month + 1, 1⟩
  else ⟨d.year + 1, 1, 1⟩

/-- Decimal digit value of a character, or `none`. -/
def digitVal (c : Char) : Option Nat :=
  if c.isDigit then some (c.toNat - 48) else none

/-- Python's `datetime.date.fromisoformat`: parses exactly `YYYY-MM-DD` and
checks the result is a valid calendar date; the `ValueError` path is embedded
as `none`. -/
def fromisoformat (s : String) : Option Date :=
  match s.toList with
  | [y1, y2, y3, y4, s1, m1, m2, s2, d1, d2] =>
    if s1 = '-' ∧ s2 = '-' then
      match digitVal y1, digitVal y2, digitVal y3, digitVal y4,
            digitVal m1, digitVal m2, digitVal d1, digitVal d2 with
      | some a, some b, some c, some e, some f, some g, some h, some i =>
        let d : Date := ⟨1000 * a + 100 * b + 10 * c + e, 10 * f + g, 10 * h + i⟩
        if d.valid then some d else none
      | _, _, _, _, _, _, _, _ => none
    else none
  | _ => none

/-! ### Rounding (`round(x, 2)`) -/

/-- Round-half-to-even on rationals (Python's `round` tie-breaking rule). -/
def roundHalfEven (x : ℚ) : ℤ :=
  let f := ⌊x⌋
  if x - f < 1 / 2 then f
  else if x - f > 1 / 2 then f + 1
  else if f % 2 = 0 then f else f + 1

/-- Python's `round(x, 2)`. -/
def round2 (x : ℚ) : ℚ :=
  (roundHalfEven (x * 100) : ℚ) / 100

/-! ### The rule-based estimator (`src/rulebased_pricing_module.py`) -/

/-- Season multiplier of the rule-based estimator, as a function of the
night's month (Rule 1 in `calculate_price_with_rules`). -/
def season_multiplier (month : Nat) : ℚ :=
  if month = 12 ∨ month = 1 ∨ month = 2 then 1.20
  else if month = 6 ∨ month = 7 ∨ month = 8 then 0.85
  else 1.0

/-- Weekend multiplier of the rule-based estimator, as a function of the
night's weekday, Monday = 0 (Rule 2 in `calculate_price_with_rules`). -/
def weekend_multiplier (weekday : Nat) : ℚ :=
  if weekday = 4 ∨ weekday = 5 then 1.15 else 1.0

/-- The night-by-night accumulation loop of `calculate_price_with_rules`:
`n` iterations starting at date `d`, each adding
`base * (season_multiplier * weekend_multiplier)` for the current date and
then stepping to the next day. -/
def ruleLoop (base : ℚ) : Nat → Date → ℚ
  | 0, _ => 0
  | n + 1, d =>
    base * (season_multiplier d.month * weekend_multiplier d.weekday) +
      ruleLoop base n d.next

/-- Typed failures of the rule-based estimator (spec §7). The source returns
`None` after a diagnostic print; the printed message distinguishes the two
paths (missing/malformed input vs. bad date range). -/
inductive PriceError where
  | InvalidInput
  | InvalidRange
deriving DecidableEq, Repr

/-- The pre-rounding final price:
`total_rule_based_price * (1 + platform_fee_percent / 100.0)`. -/
def final_display_price (base : ℚ) (checkIn : Date) (numNights : Nat) (fee : ℚ) : ℚ :=
  ruleLoop base numNights checkIn * (1 + fee / 100)

/-- The function `calculate_price_with_rules` of `src/rulebased_pricing_module.py`.

The opening `if not all([...])` check tests Python truthiness: a zero base
price or an empty date string is treated as a missing input (spec §7 files
missing fields under `InvalidInput`); a date-parse `ValueError` is also
`InvalidInput`; `check_out_date <= check_in_date` is `InvalidRange`. Dates
are compared through their day numbers, which agrees with Python's comparison
of `date` objects. -/
def calculate_price_with_rules (base_price_per_night : ℚ)
    (check_in_date_str check_out_date_str : String)
    (platform_fee_percent : ℚ) : Except PriceError ℚ :=
  if base_price_per_night = 0 ∨ check_in_date_str = "" ∨ check_out_date_str = "" then
    .error .InvalidInput
  else
    match fromisoformat check_in_date_str, fromisoformat check_out_date_str with
    | some check_in_date, some check_out_date =>
      if check_out_date.toDayNumber ≤ check_in_date.toDayNumber then
        .error .InvalidRange
      else
        let num_nights := check_out_date.toDayNumber - check_in_date.toDayNumber
        .ok (round2 (final_display_price base_price_per_night check_in_date
          num_nights platform_fee_percent))
    | _, _ => .error .InvalidInput

/-! ### The comparable estimator (`src/houseboat_price_predictor.py`) -/

/-- A row of the historical bookings CSV, before categorical encoding. -/
structure RawRecord where
  capacity : Int
  bedrooms : Int
  houseboat_type : String
  season : String
  duration : Int
  base_price : ℚ
  final_price : ℚ
deriving DecidableEq, Repr

/-- A dataset row after `LabelEncoder.fit_transform` replaced the two
categorical columns by integer codes. -/
structure Record where
  capacity : Int
  bedrooms : Int
  houseboat_type : Nat
  season : Nat
  duration : Int
  base_price : ℚ
  final_price : ℚ
deriving DecidableEq, Repr

/-- Embeds `sklearn.LabelEncoder.fit`: the classes are the distinct labels, in
sorted order. -/
def fitEncoder (labels : List String) : List String :=
  labels.dedup.insertionSort (· ≤ ·)

/-- Embeds `LabelEncoder.transform` on a single label: its index among the fitted
classes, or `none` (the encoder raises `ValueError`) for an unseen label. -/
def transform (classes : List String) (label : String) : Option Nat :=
  match classes with
  | [] => none
  | c :: rest => if c = label then some 0 else (transform rest label).map (· + 1)

/-- The module-level dataset preparation of `src/houseboat_price_predictor.py`:
keep only `duration == 1` rows, fit a `LabelEncoder` on each categorical
column, and replace the column values by their codes. (`getD 0` is never
reached: every stored label occurs in the list the encoder was fitted on.) -/
def buildContext (raw : List RawRecord) : List Record × List String × List String :=
  let filtered := raw.filter (fun r => r.duration == 1)
  let encT := fitEncoder (filtered.map (·.houseboat_type))
  let encS := fitEncoder (filtered.map (·.season))
  (filtered.map (fun r =>
    { capacity := r.capacity, bedrooms := r.bedrooms,
      houseboat_type := (transform encT r.houseboat_type).getD 0,
      season := (transform encS r.season).getD 0,
      duration := r.duration, base_price := r.base_price,
      final_price := r.final_price }),
   encT, encS)

/-- Standard median of a list of rationals (`pandas.Series.median` /
`numpy.median` on a nonempty collection): middle element of the sorted list,
or the average of the two middle elements for an even length. -/
def medianQ (l : List ℚ) : ℚ :=
  let s := l.insertionSort (· ≤ ·)
  if l.length % 2 = 1 then s.getD (l.length / 2) 0
  else (s.getD (l.length / 2 - 1) 0 + s.getD (l.length / 2) 0) / 2

/-- Embeds `pandas.Series.median`, with the NaN result on an empty column embedded
as `none`. -/
def medianOfList (l : List ℚ) : Option ℚ :=
  if l = [] then none else some (medianQ l)

/-- Seasonal multiplier of the comparable estimator:
`1.2 if season == "Peak" else 0.85`. -/
def seasonal_multiplier (season : String) : ℚ :=
  if season = "Peak" then 1.2 else 0.85

/-- The `similar_boats` selection of `predict_dynamic_price`: rows whose
capacity, bedrooms and the two encoded categorical fields all equal the
query's values. -/
def similar_boats (df : List Record) (capacity bedrooms : Int)
    (houseboat_type_encoded season_encoded : Nat) : List Record :=
  df.filter (fun r =>
    r.capacity == capacity && r.bedrooms == bedrooms &&
      r.houseboat_type == houseboat_type_encoded && r.season == season_encoded)

/-- The validation step of `predict_dynamic_price`: when there is at least one
actual price, compare the prediction with the median actual price and average
the two when they differ by more than 20% of the median actual price. -/
def reconcile (predicted_price : ℚ) (actual_prices : List ℚ) : ℚ :=
  if 0 < actual_prices.length then
    let median_actual_price := medianQ actual_prices
    if |predicted_price - median_actual_price| > 0.2 * median_actual_price then
      (predicted_price + median_actual_price) / 2
    else predicted_price
  else predicted_price

/-- Typed failures of the comparable estimator (spec §7). In the script an
unseen label raises an uncaught `ValueError` (named `UnknownCategory` by spec
§9). `EmptyDataset` names the spec's all-medians-undefined outcome, but
through the script's own pipeline it is unreachable: an empty dataset leaves
the encoders with no classes, so every query already fails at label
encoding. -/
inductive PredictError where
  | UnknownCategory
  | EmptyDataset
deriving DecidableEq, Repr

/-- The function `predict_dynamic_price` of `src/houseboat_price_predictor.py`, as a pure
function of the prepared dataset, the two fitted encoders, and the query
fields (the `input()` prompting and the final print are presentation glue
outside the embedded core). -/
def predict_dynamic_price (df : List Record) (encT encS : List String)
    (capacity bedrooms : Int) (houseboat_type season : String) :
    Except PredictError ℚ :=
  match transform encT houseboat_type with
  | none => .error .UnknownCategory
  | some houseboat_type_encoded =>
    match transform encS season with
    | none => .error .UnknownCategory
    | some season_encoded =>
      let similar := similar_boats df capacity bedrooms
        houseboat_type_encoded season_encoded
      match
        match medianOfList (similar.map (fun r : Record => r.base_price)) with
        | some b => some b
        | none => medianOfList (df.map (fun r : Record => r.base_price)) with
      | none => .error .EmptyDataset
      | some base_price =>
        let predicted_price := base_price * seasonal_multiplier season
        .ok (reconcile predicted_price
          (similar.map (fun r : Record => r.final_price)))

/-! ### Helper lemmas -/

theorem fromisoformat_ne_empty {s : String} {d : Date}
    (h : fromisoformat s = some d) : s ≠ "" := by
  intro he
  subst he
  exact Option.noConfusion ((rfl : fromisoformat "" = none) ▸ h)

/-- Normal form of the success path of `calculate_price_with_rules`. -/
theorem calculate_eval (base fee : ℚ) (ci co : String) (dci dco : Date)
    (hbase : base ≠ 0) (hci : fromisoformat ci = some dci)
    (hco : fromisoformat co = some dco)
    (hlt : dci.toDayNumber < dco.toDayNumber) :
    calculate_price_with_rules base ci co fee =
      .ok (round2 (final_display_price base dci
        (dco.toDayNumber - dci.toDayNumber) fee)) := by
  unfold calculate_price_with_rules
  rw [if_neg (by
    push_neg
    exact ⟨hbase, fromisoformat_ne_empty hci, fromisoformat_ne_empty hco⟩)]
  simp only [hci, hco]
  rw [if_neg (by omega)]

theorem ruleLoop_eq_sum (base : ℚ) (n : Nat) (d : Date) :
    ruleLoop base n d = ((List.range n).map (fun i =>
      base * season_multiplier (Date.next^[i] d).month *
        weekend_multiplier (Date.next^[i] d).weekday)).sum := by
  induction n generalizing d with
  | zero => simp [ruleLoop]
  | succ n ih =>
    rw [ruleLoop, List.range_succ_eq_map, List.map_cons, List.sum_cons,
      List.map_map, ih d.next]
    have hmaps : ((List.range n).map ((fun i =>
        base * season_multiplier (Date.next^[i] d).month *
          weekend_multiplier (Date.next^[i] d).weekday) ∘ Nat.succ)) =
        (List.range n).map (fun i =>
          base * season_multiplier (Date.next^[i] d.next).month *
            weekend_multiplier (Date.next^[i] d.next).weekday) := by
      refine List.map_congr_left fun i _ => ?_

      simp [Function.comp, Function.iterate_succ_apply]
    rw [hmaps]
    simp [Function.iterate_zero_apply]
    ring

theorem ruleLoop_smul (base : ℚ) (n : Nat) (d : Date) :
    ruleLoop base n d = base * ruleLoop 1 n d := by
  induction n generalizing d with
  | zero => simp [ruleLoop]
  | succ n ih =>
    rw [ruleLoop, ruleLoop, ih d.next]
    ring

theorem season_multiplier_pos (m : Nat) : 0 < season_multiplier m := by
  unfold season_multiplier
  split
  · norm_num
  · split <;> norm_num

theorem weekend_multiplier_pos (w : Nat) : 0 < weekend_multiplier w := by
  unfold weekend_multiplier
  split <;> norm_num

theorem ruleLoop_one_pos (n : Nat) (d : Date) (hn : 0 < n) :
    0 < ruleLoop 1 n d := by
  induction n generalizing d with
  | zero => omega
  | succ n ih =>
    rw [ruleLoop]
    have h1 := season_multiplier_pos d.month
    have h2 := weekend_multiplier_pos d.weekday
    rcases Nat.eq_zero_or_pos n with h | h
    · subst h
      simp [ruleLoop]
      nlinarith
    · have := ih d.next h
      nlinarith

theorem roundHalfEven_le (x : ℚ) : roundHalfEven x ≤ ⌊x⌋ + 1 := by
  simp only [roundHalfEven]
  split_ifs <;> omega

theorem le_roundHalfEven (x : ℚ) : ⌊x⌋ ≤ roundHalfEven x := by
  simp only [roundHalfEven]
  split_ifs <;> omega

theorem roundHalfEven_mono {x y : ℚ} (hxy : x ≤ y) :
    roundHalfEven x ≤ roundHalfEven y := by
  have hf : ⌊x⌋ ≤ ⌊y⌋ := Int.floor_mono hxy
  rcases eq_or_lt_of_le hf with heq | hlt
  · simp only [roundHalfEven]
    rw [← heq]
    split_ifs <;> first | omega | linarith
  · calc roundHalfEven x ≤ ⌊x⌋ + 1 := roundHalfEven_le x
      _ ≤ ⌊y⌋ := by omega
      _ ≤ roundHalfEven y := le_roundHalfEven y

theorem round2_mono {x y : ℚ} (hxy : x ≤ y) : round2 x ≤ round2 y := by
  unfold round2
  have : roundHalfEven (x * 100) ≤ roundHalfEven (y * 100) :=
    roundHalfEven_mono (by linarith)
  have hc : ((roundHalfEven (x * 100) : ℚ)) ≤ ((roundHalfEven (y * 100) : ℚ)) := by
    exact_mod_cast this
  linarith

theorem transform_eq_none {classes : List String} {x : String} :
    transform classes x = none ↔ x ∉ classes := by
  induction classes with
  | nil => simp [transform]
  | cons c rest ih =>
    rw [transform]
    by_cases hc : c = x
    · simp [hc]
    · simp [hc, Option.map_eq_none', ih, Ne.symm hc]

theorem mem_fitEncoder {l : List String} {x : String} :
    x ∈ fitEncoder l ↔ x ∈ l := by
  unfold fitEncoder
  rw [List.mem_insertionSort, List.mem_dedup]

/-- Normal form of `predict_dynamic_price` when the exact-match subset is
non-empty: median of the subset's base prices, seasonal multiplier,
reconciliation against the subset's actual prices. -/
theorem predict_eval_of_ne (df : List Record) (encT encS : List String)
    (capacity bedrooms : Int) (tlabel slabel : String) (a b : Nat)
    (hta : transform encT tlabel = some a) (htb : transform encS slabel = some b)
    (hne : similar_boats df capacity bedrooms a b ≠ []) :
    predict_dynamic_price df encT encS capacity bedrooms tlabel slabel =
      .ok (reconcile (medianQ ((similar_boats df capacity bedrooms a b).map
          (fun r : Record => r.base_price)) * seasonal_multiplier slabel)
        ((similar_boats df capacity bedrooms a b).map
          (fun r : Record => r.final_price))) := by
  have hm : medianOfList ((similar_boats df capacity bedrooms a b).map
      (fun r : Record => r.base_price)) =
      some (medianQ ((similar_boats df capacity bedrooms a b).map
        (fun r : Record => r.base_price))) := by
    unfold medianOfList
    rw [if_neg (by simp [hne])]
  unfold predict_dynamic_price
  simp only [hta, htb, hm]

/-- Normal form of `predict_dynamic_price` when the exact-match subset is
empty but the dataset is not: global median fallback, no reconciliation. -/
theorem predict_eval_fallback (df : List Record) (encT encS : List String)
    (capacity bedrooms : Int) (tlabel slabel : String) (a b : Nat)
    (hta : transform encT tlabel = some a) (htb : transform encS slabel = some b)
    (hsim : similar_boats df capacity bedrooms a b = []) (hdf : df ≠ []) :
    predict_dynamic_price df encT encS capacity bedrooms tlabel slabel =
      .ok (medianQ (df.map (fun r : Record => r.base_price)) *
        seasonal_multiplier slabel) := by
  have hm2 : medianOfList (df.map (fun r : Record => r.base_price)) =
      some (medianQ (df.map (fun r : Record => r.base_price))) := by
    unfold medianOfList
    rw [if_neg (by simp [hdf])]
  unfold predict_dynamic_price
  simp only [hta, htb, hsim, List.map_nil]
  rw [show medianOfList ([] : List ℚ) = none from rfl]
  simp only [hm2]
  simp [reconcile]

/-- Evaluation of `predict_dynamic_price` when the houseboat-type label is
unknown to its encoder. -/
theorem predict_eval_unknown_left (df : List Record) (encT encS : List String)
    (capacity bedrooms : Int) (tlabel slabel : String)
    (hta : transform encT tlabel = none) :
    predict_dynamic_price df encT encS capacity bedrooms tlabel slabel =
      .error .UnknownCategory := by
  unfold predict_dynamic_price
  simp only [hta]

/-- Evaluation of `predict_dynamic_price` when the season label is unknown
to its encoder. -/
theorem predict_eval_unknown_right (df : List Record) (encT encS : List String)
    (capacity bedrooms : Int) (tlabel slabel : String) (a : Nat)
    (hta : transform encT tlabel = some a) (htb : transform encS slabel = none) :
    predict_dynamic_price df encT encS capacity bedrooms tlabel slabel =
      .error .UnknownCategory := by
  unfold predict_dynamic_price
  simp only [hta, htb]

/-- A successful encoding of a query label forces the prepared dataset to be
non-empty: the encoder classes are fitted on the `duration == 1` rows, so an
empty prepared dataset leaves `transform` with no classes to match. -/
theorem buildContext_df_ne_nil {raw : List RawRecord} {tlabel : String} {a : Nat}
    (hta : transform (buildContext raw).2.1 tlabel = some a) :
    (buildContext raw).1 ≠ [] := by
  intro hdf
  have hfil : raw.filter (fun r => r.duration == 1) = [] := by
    have h := hdf
    rw [show (buildContext raw).1 = (raw.filter (fun r => r.duration == 1)).map _
      from rfl, List.map_eq_nil_iff] at h
    exact h
  rw [show (buildContext raw).2.1 = fitEncoder ((raw.filter
    (fun r => r.duration == 1)).map (fun r : RawRecord => r.houseboat_type))
    from rfl, hfil] at hta
  exact Option.noConfusion hta

/-! ### Claim theorems: the rule-based estimator -/

/-- Claim C1: for every valid `StayRequest` (positive base price, parseable
dates, check-out strictly after check-in), the rule-based estimator returns
`round(total * (1 + platform_fee_percent / 100), 2)`, where `total` sums, over
each night from check-in up to but excluding check-out,
`base_price_per_night * season_multiplier * weekend_multiplier` with the
multipliers of the claim, combined by plain multiplication. -/
theorem C1_rule_based_price_formula (base fee : ℚ) (ci co : String)
    (dci dco : Date) (hbase : 0 < base)
    (hci : fromisoformat ci = some dci) (hco : fromisoformat co = some dco)
    (hlt : dci.toDayNumber < dco.toDayNumber) :
    calculate_price_with_rules base ci co fee =
      .ok (round2 ((((List.range (dco.toDayNumber - dci.toDayNumber)).map
        (fun i => base * season_multiplier (Date.next^[i] dci).month *
          weekend_multiplier (Date.next^[i] dci).weekday)).sum) *
        (1 + fee / 100))) := by
  rw [calculate_eval base fee ci co dci dco (ne_of_gt hbase) hci hco hlt,
    final_display_price, ruleLoop_eq_sum]

/-- Witness for C1 at base 7000, dates 2024-07-10 → 2024-07-11, fee 10. -/
theorem C1_rule_based_price_formula_witness :
    calculate_price_with_rules 7000 "2024-07-10" "2024-07-11" 10 =
      .ok (round2 ((((List.range ((Date.mk 2024 7 11).toDayNumber -
        (Date.mk 2024 7 10).toDayNumber)).map
        (fun i => 7000 * season_multiplier (Date.next^[i] (Date.mk 2024 7 10)).month *
          weekend_multiplier (Date.next^[i] (Date.mk 2024 7 10)).weekday)).sum) *
        (1 + 10 / 100))) :=
  C1_rule_based_price_formula 7000 10 "2024-07-10" "2024-07-11"
    ⟨2024, 7, 10⟩ ⟨2024, 7, 11⟩ (by norm_num) rfl rfl (by decide)

/-- Claim C2: the two literal scenarios of the spec. base 7000, 2024-12-20 →
2024-12-22 (two peak-season weekend nights), fee 10 gives 21252.00; base 7000,
2024-07-10 → 2024-07-11 (one off-season weekday night), fee 10 gives 6545.00. -/
theorem C2_literal_scenarios :
    calculate_price_with_rules 7000 "2024-12-20" "2024-12-22" 10 = .ok 21252 ∧
    calculate_price_with_rules 7000 "2024-07-10" "2024-07-11" 10 = .ok 6545 := by
  constructor
  · rw [calculate_eval 7000 10 "2024-12-20" "2024-12-22" ⟨2024, 12, 20⟩
      ⟨2024, 12, 22⟩ (by norm_num) rfl rfl (by decide)]
    rw [show final_display_price 7000 ⟨2024, 12, 20⟩
        ((Date.mk 2024 12 22).toDayNumber - (Date.mk 2024 12 20).toDayNumber) 10 =
        (7000 * (season_multiplier 12 * weekend_multiplier 4) +
          (7000 * (season_multiplier 12 * weekend_multiplier 5) + 0)) *
          (1 + 10 / 100) from rfl]
    norm_num [season_multiplier, weekend_multiplier, round2, roundHalfEven]
  · rw [calculate_eval 7000 10 "2024-07-10" "2024-07-11" ⟨2024, 7, 10⟩
      ⟨2024, 7, 11⟩ (by norm_num) rfl rfl (by decide)]
    rw [show final_display_price 7000 ⟨2024, 7, 10⟩
        ((Date.mk 2024 7 11).toDayNumber - (Date.mk 2024 7 10).toDayNumber) 10 =
        (7000 * (season_multiplier 7 * weekend_multiplier 2) + 0) *
          (1 + 10 / 100) from rfl]
    norm_num [season_multiplier, weekend_multiplier, round2, roundHalfEven]

/-- Claim C6 (amended): a zero base price, or a date string that does not
parse as a valid calendar date, makes `calculate_price_with_rules` fail with
`InvalidInput` before any price computation. (The claim's "any non-positive
base price" is too strong: the source's `if not all([...])` truthiness check
only catches `0`, and a negative base price flows through to a price —
see the counterexample.) -/
theorem C6_invalid_input (base fee : ℚ) (ci co : String)
    (h : base = 0 ∨ fromisoformat ci = none ∨ fromisoformat co = none) :
    calculate_price_with_rules base ci co fee = .error .InvalidInput := by
  unfold calculate_price_with_rules
  by_cases h0 : base = 0 ∨ ci = "" ∨ co = ""
  · rw [if_pos h0]
  · rw [if_neg h0]
    push_neg at h0
    rcases h with h | h | h
    · exact absurd h h0.1
    · cases hco : fromisoformat co <;> simp [h, hco]
    · cases hci : fromisoformat ci <;> simp [h, hci]

/-- Witness for C6 (amended): a zero base price is rejected as missing input. -/
theorem C6_invalid_input_witness :
    calculate_price_with_rules 0 "2024-12-20" "2024-12-22" 10 =
      .error .InvalidInput :=
  C6_invalid_input 0 10 "2024-12-20" "2024-12-22" (Or.inl rfl)

/-- Counterexample to C6 as stated: the strictly negative base price −100 is
not rejected; the estimator returns the (negative) price −110 instead of
failing with `InvalidInput`. -/
theorem C6_counterexample :
    (-100 : ℚ) < 0 ∧
    calculate_price_with_rules (-100) "2024-03-04" "2024-03-05" 10 =
      .ok (-110) := by
  refine ⟨by norm_num, ?_⟩
  rw [calculate_eval (-100) 10 "2024-03-04" "2024-03-05" ⟨2024, 3, 4⟩
    ⟨2024, 3, 5⟩ (by norm_num) rfl rfl (by decide)]
  rw [show final_display_price (-100) ⟨2024, 3, 4⟩
      ((Date.mk 2024 3 5).toDayNumber - (Date.mk 2024 3 4).toDayNumber) 10 =
      (-100 * (season_multiplier 3 * weekend_multiplier 0) + 0) *
        (1 + 10 / 100) from rfl]
  norm_num [season_multiplier, weekend_multiplier, round2, roundHalfEven]

/-- Claim C8: whenever the parsed check-out date is equal to or earlier than
the parsed check-in date (in particular for a zero night count), the
rule-based estimator fails with `InvalidRange` and never returns a price. -/
theorem C8_invalid_range (base fee : ℚ) (ci co : String) (dci dco : Date)
    (hbase : 0 < base)
    (hci : fromisoformat ci = some dci) (hco : fromisoformat co = some dco)
    (hle : dco.toDayNumber ≤ dci.toDayNumber) :
    calculate_price_with_rules base ci co fee = .error .InvalidRange := by
  unfold calculate_price_with_rules
  rw [if_neg (by
    push_neg
    exact ⟨ne_of_gt hbase, fromisoformat_ne_empty hci, fromisoformat_ne_empty hco⟩)]
  simp only [hci, hco]
  rw [if_pos hle]

/-- Witness for C8: equal check-in and check-out dates are rejected. -/
theorem C8_invalid_range_witness :
    calculate_price_with_rules 100 "2024-05-05" "2024-05-05" 10 =
      .error .InvalidRange :=
  C8_invalid_range 100 10 "2024-05-05" "2024-05-05" ⟨2024, 5, 5⟩ ⟨2024, 5, 5⟩
    (by norm_num) rfl rfl (le_refl _)

/-- Claim C10: `calculate_price_with_rules` is total — on every input it
either returns a typed failure (the source's `None` after a diagnostic
print) or succeeds with a value that is a whole number of hundredths
(a float rounded to 2 decimal places). -/
theorem C10_totality (base fee : ℚ) (ci co : String) :
    (∃ e, calculate_price_with_rules base ci co fee = .error e) ∨
    (∃ n : ℤ, calculate_price_with_rules base ci co fee = .ok ((n : ℚ) / 100)) := by
  unfold calculate_price_with_rules
  by_cases h0 : base = 0 ∨ ci = "" ∨ co = ""
  · rw [if_pos h0]
    exact .inl ⟨_, rfl⟩
  · rw [if_neg h0]
    rcases hci : fromisoformat ci with _ | dci
    · exact .inl ⟨.InvalidInput, by simp [hci]⟩
    · rcases hco : fromisoformat co with _ | dco
      · exact .inl ⟨.InvalidInput, by simp [hci, hco]⟩
      · by_cases hle : dco.toDayNumber ≤ dci.toDayNumber
        · exact .inl ⟨.InvalidRange, by simp [hci, hco, hle]⟩
        · refine .inr ⟨roundHalfEven (final_display_price base dci
            (dco.toDayNumber - dci.toDayNumber) fee * 100), ?_⟩
          simp [hci, hco, hle, round2]

/-- Claim C7 (amended): with dates and fee fixed, the rounded result is
monotone (weakly increasing) in the base price, and with base price and dates
fixed it is monotone in the platform fee; the pre-rounding price
`final_display_price` is strictly increasing in both. (The claim's strict
increase of the returned value fails at the 2-decimal rounding — see the
counterexample.) -/
theorem C7_monotonicity (b1 b2 f1 f2 : ℚ) (ci co : String) (dci dco : Date)
    (hci : fromisoformat ci = some dci) (hco : fromisoformat co = some dco)
    (hlt : dci.toDayNumber < dco.toDayNumber)
    (hb1 : 0 < b1) (hb12 : b1 ≤ b2) (hf1 : 0 ≤ f1) (hf12 : f1 ≤ f2) :
    (calculate_price_with_rules b1 ci co f1 =
        .ok (round2 (final_display_price b1 dci
          (dco.toDayNumber - dci.toDayNumber) f1)) ∧
      calculate_price_with_rules b2 ci co f1 =
        .ok (round2 (final_display_price b2 dci
          (dco.toDayNumber - dci.toDayNumber) f1)) ∧
      calculate_price_with_rules b1 ci co f2 =
        .ok (round2 (final_display_price b1 dci
          (dco.toDayNumber - dci.toDayNumber) f2))) ∧
    round2 (final_display_price b1 dci (dco.toDayNumber - dci.toDayNumber) f1) ≤
      round2 (final_display_price b2 dci (dco.toDayNumber - dci.toDayNumber) f1) ∧
    round2 (final_display_price b1 dci (dco.toDayNumber - dci.toDayNumber) f1) ≤
      round2 (final_display_price b1 dci (dco.toDayNumber - dci.toDayNumber) f2) ∧
    (b1 < b2 → final_display_price b1 dci (dco.toDayNumber - dci.toDayNumber) f1 <
      final_display_price b2 dci (dco.toDayNumber - dci.toDayNumber) f1) ∧
    (f1 < f2 → final_display_price b1 dci (dco.toDayNumber - dci.toDayNumber) f1 <
      final_display_price b1 dci (dco.toDayNumber - dci.toDayNumber) f2) := by
  have hn : 0 < dco.toDayNumber - dci.toDayNumber := by omega
  set L := ruleLoop 1 (dco.toDayNumber - dci.toDayNumber) dci with hLdef
  have hL : 0 < L := ruleLoop_one_pos _ dci hn
  have hb2 : 0 < b2 := lt_of_lt_of_le hb1 hb12
  have hk1 : (0 : ℚ) < 1 + f1 / 100 := by linarith
  have hbl : 0 < b1 * L := mul_pos hb1 hL
  have key : ∀ b f : ℚ, final_display_price b dci
      (dco.toDayNumber - dci.toDayNumber) f = b * L * (1 + f / 100) := by
    intro b f
    rw [final_display_price, ruleLoop_smul, hLdef]
  refine ⟨⟨calculate_eval b1 f1 ci co dci dco (ne_of_gt hb1) hci hco hlt,
      calculate_eval b2 f1 ci co dci dco (ne_of_gt hb2) hci hco hlt,
      calculate_eval b1 f2 ci co dci dco (ne_of_gt hb1) hci hco hlt⟩,
    ?_, ?_, ?_, ?_⟩
  · refine round2_mono ?_
    rw [key, key]
    exact mul_le_mul_of_nonneg_right
      (mul_le_mul_of_nonneg_right hb12 (le_of_lt hL)) (le_of_lt hk1)
  · refine round2_mono ?_
    rw [key, key]
    exact mul_le_mul_of_nonneg_left (by linarith) (le_of_lt hbl)
  · intro h
    rw [key, key]
    exact mul_lt_mul_of_pos_right (mul_lt_mul_of_pos_right h hL) hk1
  · intro h
    rw [key, key]
    exact mul_lt_mul_of_pos_left (by linarith) hbl

/-- Witness for C7 (amended) at bases 7000 ≤ 8000, fees 10 ≤ 20, one
off-season night. -/
theorem C7_monotonicity_witness :
    round2 (final_display_price 7000 ⟨2024, 7, 10⟩
        ((Date.mk 2024 7 11).toDayNumber - (Date.mk 2024 7 10).toDayNumber) 10) ≤
      round2 (final_display_price 8000 ⟨2024, 7, 10⟩
        ((Date.mk 2024 7 11).toDayNumber - (Date.mk 2024 7 10).toDayNumber) 10) :=
  (C7_monotonicity 7000 8000 10 20 "2024-07-10" "2024-07-11" ⟨2024, 7, 10⟩
    ⟨2024, 7, 11⟩ rfl rfl (by decide) (by norm_num) (by norm_num)
    (by norm_num) (by norm_num)).2.1

/-- Counterexample to C7 as stated: increasing the base price from 7000 to
7000.001 leaves the rounded result unchanged at 21252.00, so the returned
value does not strictly increase in the base price. -/
theorem C7_counterexample :
    (7000 : ℚ) < 7000 + 1 / 1000 ∧
    calculate_price_with_rules 7000 "2024-12-20" "2024-12-22" 10 = .ok 21252 ∧
    calculate_price_with_rules (7000 + 1 / 1000) "2024-12-20" "2024-12-22" 10 =
      .ok 21252 := by
  refine ⟨by norm_num, ?_, ?_⟩
  · rw [calculate_eval 7000 10 "2024-12-20" "2024-12-22" ⟨2024, 12, 20⟩
      ⟨2024, 12, 22⟩ (by norm_num) rfl rfl (by decide)]
    rw [show final_display_price 7000 ⟨2024, 12, 20⟩
        ((Date.mk 2024 12 22).toDayNumber - (Date.mk 2024 12 20).toDayNumber) 10 =
        (7000 * (season_multiplier 12 * weekend_multiplier 4) +
          (7000 * (season_multiplier 12 * weekend_multiplier 5) + 0)) *
          (1 + 10 / 100) from rfl]
    norm_num [season_multiplier, weekend_multiplier, round2, roundHalfEven]
  · rw [calculate_eval (7000 + 1 / 1000) 10 "2024-12-20" "2024-12-22"
      ⟨2024, 12, 20⟩ ⟨2024, 12, 22⟩ (by norm_num) rfl rfl (by decide)]
    rw [show final_display_price (7000 + 1 / 1000) ⟨2024, 12, 20⟩
        ((Date.mk 2024 12 22).toDayNumber - (Date.mk 2024 12 20).toDayNumber) 10 =
        ((7000 + 1 / 1000) * (season_multiplier 12 * weekend_multiplier 4) +
          ((7000 + 1 / 1000) * (season_multiplier 12 * weekend_multiplier 5) + 0)) *
          (1 + 10 / 100) from rfl]
    norm_num [season_multiplier, weekend_multiplier, round2, roundHalfEven]

/-! ### Claim theorems: the comparable estimator -/

/-- Claim C3: the comparable estimator selects exactly the `duration == 1`
dataset rows whose capacity, bedrooms and the two encoded categorical fields
equal the query's values, takes the median of `base_price` over that subset,
and multiplies by 1.2 for a "Peak" query season and 0.85 otherwise. -/
theorem C3_exact_match_median (raw : List RawRecord) (capacity bedrooms : Int)
    (tlabel slabel : String) (a b : Nat)
    (hta : transform (buildContext raw).2.1 tlabel = some a)
    (htb : transform (buildContext raw).2.2 slabel = some b)
    (hne : similar_boats (buildContext raw).1 capacity bedrooms a b ≠ []) :
    predict_dynamic_price (buildContext raw).1 (buildContext raw).2.1
      (buildContext raw).2.2 capacity bedrooms tlabel slabel =
      .ok (reconcile
        (medianQ (((buildContext raw).1.filter (fun r =>
          r.capacity == capacity && r.bedrooms == bedrooms &&
            r.houseboat_type == a && r.season == b)).map
          (fun r : Record => r.base_price)) *
          (if slabel = "Peak" then 1.2 else 0.85))
        (((buildContext raw).1.filter (fun r =>
          r.capacity == capacity && r.bedrooms == bedrooms &&
            r.houseboat_type == a && r.season == b)).map
          (fun r : Record => r.final_price))) := by
  rw [predict_eval_of_ne _ _ _ _ _ _ _ _ _ hta htb hne]
  simp only [similar_boats, seasonal_multiplier]

/-- Witness for C3: a one-row dataset that exactly matches the query. -/
theorem C3_exact_match_median_witness :
    predict_dynamic_price
      (buildContext [⟨2, 1, "Standard", "Peak", 1, 100, 120⟩]).1
      (buildContext [⟨2, 1, "Standard", "Peak", 1, 100, 120⟩]).2.1
      (buildContext [⟨2, 1, "Standard", "Peak", 1, 100, 120⟩]).2.2 2 1
      "Standard" "Peak" =
      .ok (reconcile
        (medianQ (((buildContext [⟨2, 1, "Standard", "Peak", 1, 100, 120⟩]).1.filter
          (fun r => r.capacity == 2 && r.bedrooms == 1 &&
            r.houseboat_type == 0 && r.season == 0)).map
          (fun r : Record => r.base_price)) *
          (if "Peak" = "Peak" then 1.2 else 0.85))
        (((buildContext [⟨2, 1, "Standard", "Peak", 1, 100, 120⟩]).1.filter
          (fun r => r.capacity == 2 && r.bedrooms == 1 &&
            r.houseboat_type == 0 && r.season == 0)).map
          (fun r : Record => r.final_price))) :=
  C3_exact_match_median [⟨2, 1, "Standard", "Peak", 1, 100, 120⟩] 2 1
    "Standard" "Peak" 0 0 rfl rfl (by decide)

/-- Claim C4: with a non-empty exact-match subset, the returned price is the
arithmetic mean of `predicted_price` and the subset's median `final_price`
exactly when they deviate by strictly more than 20% of the latter, and is
`predicted_price` unchanged otherwise. -/
theorem C4_reconciliation_threshold (raw : List RawRecord)
    (capacity bedrooms : Int) (tlabel slabel : String) (a b : Nat)
    (hta : transform (buildContext raw).2.1 tlabel = some a)
    (htb : transform (buildContext raw).2.2 slabel = some b)
    (hne : similar_boats (buildContext raw).1 capacity bedrooms a b ≠ []) :
    predict_dynamic_price (buildContext raw).1 (buildContext raw).2.1
      (buildContext raw).2.2 capacity bedrooms tlabel slabel =
      .ok (if |medianQ ((similar_boats (buildContext raw).1 capacity bedrooms a b).map
              (fun r : Record => r.base_price)) * seasonal_multiplier slabel -
            medianQ ((similar_boats (buildContext raw).1 capacity bedrooms a b).map
              (fun r : Record => r.final_price))| >
            0.2 * medianQ ((similar_boats (buildContext raw).1 capacity bedrooms a b).map
              (fun r : Record => r.final_price))
        then (medianQ ((similar_boats (buildContext raw).1 capacity bedrooms a b).map
                (fun r : Record => r.base_price)) * seasonal_multiplier slabel +
              medianQ ((similar_boats (buildContext raw).1 capacity bedrooms a b).map
                (fun r : Record => r.final_price))) / 2
        else medianQ ((similar_boats (buildContext raw).1 capacity bedrooms a b).map
              (fun r : Record => r.base_price)) * seasonal_multiplier slabel) := by
  rw [predict_eval_of_ne _ _ _ _ _ _ _ _ _ hta htb hne]
  have hlen : 0 < ((similar_boats (buildContext raw).1 capacity bedrooms a b).map
      (fun r : Record => r.final_price)).length := by
    simp [List.length_pos, hne]
  simp only [reconcile, if_pos hlen]

/-- Witness for C4: the one-row fixture, where predicted 120 deviates from
actual 120 by 0% and is returned unchanged. -/
theorem C4_reconciliation_threshold_witness :
    predict_dynamic_price
      (buildContext [⟨2, 1, "Standard", "Peak", 1, 100, 120⟩]).1
      (buildContext [⟨2, 1, "Standard", "Peak", 1, 100, 120⟩]).2.1
      (buildContext [⟨2, 1, "Standard", "Peak", 1, 100, 120⟩]).2.2 2 1
      "Standard" "Peak" =
      .ok (if |medianQ ((similar_boats
              (buildContext [⟨2, 1, "Standard", "Peak", 1, 100, 120⟩]).1 2 1 0 0).map
              (fun r : Record => r.base_price)) * seasonal_multiplier "Peak" -
            medianQ ((similar_boats
              (buildContext [⟨2, 1, "Standard", "Peak", 1, 100, 120⟩]).1 2 1 0 0).map
              (fun r : Record => r.final_price))| >
            0.2 * medianQ ((similar_boats
              (buildContext [⟨2, 1, "Standard", "Peak", 1, 100, 120⟩]).1 2 1 0 0).map
              (fun r : Record => r.final_price))
        then (medianQ ((similar_boats
                (buildContext [⟨2, 1, "Standard", "Peak", 1, 100, 120⟩]).1 2 1 0 0).map
                (fun r : Record => r.base_price)) * seasonal_multiplier "Peak" +
              medianQ ((similar_boats
                (buildContext [⟨2, 1, "Standard", "Peak", 1, 100, 120⟩]).1 2 1 0 0).map
                (fun r : Record => r.final_price))) / 2
        else medianQ ((similar_boats
              (buildContext [⟨2, 1, "Standard", "Peak", 1, 100, 120⟩]).1 2 1 0 0).map
              (fun r : Record => r.base_price)) * seasonal_multiplier "Peak") :=
  C4_reconciliation_threshold [⟨2, 1, "Standard", "Peak", 1, 100, 120⟩] 2 1
    "Standard" "Peak" 0 0 rfl rfl (by decide)

/-- Claim C5 (amended): with an empty exact-match subset the estimator falls
back to the median `base_price` of the whole `duration == 1` dataset and
skips reconciliation, and this always returns a value, because a successfully
encoded query forces the prepared dataset to be non-empty. The claim's
"fails with `EmptyDataset` if and only if that dataset is empty" is wrong
about the code: `EmptyDataset` is unreachable through the script's pipeline —
on an empty dataset the encoders have no classes, so every query already
fails with `UnknownCategory` at label encoding (see the counterexample). -/
theorem C5_fallback_no_empty_dataset (raw : List RawRecord)
    (capacity bedrooms : Int) (tlabel slabel : String) :
    (∀ a b : Nat, transform (buildContext raw).2.1 tlabel = some a →
      transform (buildContext raw).2.2 slabel = some b →
      (buildContext raw).1 ≠ [] ∧
      (similar_boats (buildContext raw).1 capacity bedrooms a b = [] →
        predict_dynamic_price (buildContext raw).1 (buildContext raw).2.1
          (buildContext raw).2.2 capacity bedrooms tlabel slabel =
          .ok (medianQ ((buildContext raw).1.map
            (fun r : Record => r.base_price)) * seasonal_multiplier slabel))) ∧
    predict_dynamic_price (buildContext raw).1 (buildContext raw).2.1
      (buildContext raw).2.2 capacity bedrooms tlabel slabel ≠
      .error .EmptyDataset ∧
    (raw.filter (fun r => r.duration == 1) = [] →
      predict_dynamic_price (buildContext raw).1 (buildContext raw).2.1
        (buildContext raw).2.2 capacity bedrooms tlabel slabel =
        .error .UnknownCategory) := by
  refine ⟨?_, ?_, ?_⟩
  · intro a b hta htb
    refine ⟨buildContext_df_ne_nil hta, fun hsim => ?_⟩
    exact predict_eval_fallback _ _ _ _ _ _ _ _ _ hta htb hsim
      (buildContext_df_ne_nil hta)
  · rcases hta : transform (buildContext raw).2.1 tlabel with _ | a
    · rw [predict_eval_unknown_left _ _ _ _ _ _ _ hta]
      simp
    · rcases htb : transform (buildContext raw).2.2 slabel with _ | b
      · rw [predict_eval_unknown_right _ _ _ _ _ _ _ _ hta htb]
        simp
      · by_cases hsim : similar_boats (buildContext raw).1 capacity bedrooms a b = []
        · rw [predict_eval_fallback _ _ _ _ _ _ _ _ _ hta htb hsim
            (buildContext_df_ne_nil hta)]
          simp
        · rw [predict_eval_of_ne _ _ _ _ _ _ _ _ _ hta htb hsim]
          simp
  · intro hfil
    apply predict_eval_unknown_left
    rw [show (buildContext raw).2.1 = fitEncoder ((raw.filter
      (fun r => r.duration == 1)).map (fun r : RawRecord => r.houseboat_type))
      from rfl, hfil]
    rfl

/-- Witness for C5 (amended): the one-row fixture and a query with no exact
match (capacity 3), exercising the global-median fallback. -/
theorem C5_fallback_no_empty_dataset_witness :
    predict_dynamic_price
      (buildContext [⟨2, 1, "Standard", "Peak", 1, 100, 120⟩]).1
      (buildContext [⟨2, 1, "Standard", "Peak", 1, 100, 120⟩]).2.1
      (buildContext [⟨2, 1, "Standard", "Peak", 1, 100, 120⟩]).2.2 3 1
      "Standard" "Peak" =
      .ok (medianQ ((buildContext [⟨2, 1, "Standard", "Peak", 1, 100, 120⟩]).1.map
        (fun r : Record => r.base_price)) * seasonal_multiplier "Peak") :=
  ((C5_fallback_no_empty_dataset [⟨2, 1, "Standard", "Peak", 1, 100, 120⟩] 3 1
    "Standard" "Peak").1 0 0 rfl rfl).2 (by decide)

/-- Counterexample to C5 as stated: on the empty dataset every query fails at
label encoding with `UnknownCategory` (in the script, an uncaught
`ValueError` from an encoder fitted on no labels) — not with
`EmptyDataset`. -/
theorem C5_counterexample :
    predict_dynamic_price (buildContext []).1 (buildContext []).2.1
      (buildContext []).2.2 2 1 "Standard" "Peak" = .error .UnknownCategory ∧
    predict_dynamic_price (buildContext []).1 (buildContext []).2.1
      (buildContext []).2.2 2 1 "Standard" "Peak" ≠ .error .EmptyDataset := by
  have h : predict_dynamic_price (buildContext []).1 (buildContext []).2.1
      (buildContext []).2.2 2 1 "Standard" "Peak" = .error .UnknownCategory := by
    apply predict_eval_unknown_left
    rfl
  refine ⟨h, ?_⟩
  rw [h]
  simp

/-- Claim C9: a query label never seen when the encoders were fitted (on the
`duration == 1` rows) makes the comparable estimator fail with
`UnknownCategory`; no default code is substituted and no price is returned. -/
theorem C9_unknown_category (raw : List RawRecord) (capacity bedrooms : Int)
    (tlabel slabel : String)
    (h : tlabel ∉ (raw.filter (fun r => r.duration == 1)).map
        (fun r : RawRecord => r.houseboat_type) ∨
      slabel ∉ (raw.filter (fun r => r.duration == 1)).map
        (fun r : RawRecord => r.season)) :
    predict_dynamic_price (buildContext raw).1 (buildContext raw).2.1
      (buildContext raw).2.2 capacity bedrooms tlabel slabel =
      .error .UnknownCategory := by
  unfold predict_dynamic_price
  rcases h with h | h
  · have ht : transform (buildContext raw).2.1 tlabel = none := by
      rw [show (buildContext raw).2.1 = fitEncoder ((raw.filter
        (fun r => r.duration == 1)).map (fun r : RawRecord => r.houseboat_type))
        from rfl]
      rw [transform_eq_none, mem_fitEncoder]
      exact h
    simp only [ht]
  · have hs : transform (buildContext raw).2.2 slabel = none := by
      rw [show (buildContext raw).2.2 = fitEncoder ((raw.filter
        (fun r => r.duration == 1)).map (fun r : RawRecord => r.season))
        from rfl]
      rw [transform_eq_none, mem_fitEncoder]
      exact h
    cases htl : transform (buildContext raw).2.1 tlabel <;> simp only [htl, hs]

/-- Witness for C9: the label "Luxury" does not occur in the one-row
fixture's dataset, so the query fails with `UnknownCategory`. -/
theorem C9_unknown_category_witness :
    predict_dynamic_price
      (buildContext [⟨2, 1, "Standard", "Peak", 1, 100, 120⟩]).1
      (buildContext [⟨2, 1, "Standard", "Peak", 1, 100, 120⟩]).2.1
      (buildContext [⟨2, 1, "Standard", "Peak", 1, 100, 120⟩]).2.2 2 1
      "Luxury" "Peak" =
      .error .UnknownCategory :=
  C9_unknown_category [⟨2, 1, "Standard", "Peak", 1, 100, 120⟩] 2 1
    "Luxury" "Peak" (Or.inl (by decide))

end Houseboat
